import Mathlib

/-
  Verification of the OmniAgent OAuth credential-lifecycle and webhook
  delivery subsystem (src/services/gmail.ts, linkedin.ts, oauth.ts,
  webhooks.ts), as a shallow embedding: network responses, timestamps,
  database-generated values and randomness are explicit inputs; machine
  integers are modelled as Int/Nat with explicit wrapping at 2^32 where
  JavaScript coerces to int32.
-/

set_option maxRecDepth 10000
set_option linter.unusedVariables false
set_option linter.unnecessarySimpa false

namespace OmniAgent

/-! ## Webhook signature (webhooks.ts, generateSignature / verifyWebhookSignature)

JavaScript 32-bit coercion: `hash & hash` (and `<<`) coerce to a signed
32-bit integer.  `toInt32` is that coercion on mathematical integers. -/

def toInt32 (n : Int) : Int := (n + 2 ^ 31) % 2 ^ 32 - 2 ^ 31

/-- One iteration of the rolling-hash loop in generateSignature:
hash = ((hash << 5) - hash) + char; hash = hash & hash. -/
def hashStep (h : Int) (c : Nat) : Int := toInt32 (toInt32 (h * 32) - h + c)

def hashChars (l : List Char) : Int := l.foldl (fun h c => hashStep h c.toNat) 0

def hashString (s : String) : Int := hashChars s.data

/-- Math.abs(hash).toString(16): lowercase hex of the absolute value. -/
def toHex (n : Nat) : String := ⟨Nat.toDigits 16 n⟩

/-- The envelope built in sendWebhook: \x7b event, timestamp, data, webhookId \x7d.
The data field is restricted to string-valued JSON payloads. -/
structure WebhookPayload where
  event : String
  timestamp : String
  data : String
  webhookId : String
deriving DecidableEq

/-- JSON.stringify escaping of a character inside a JSON string literal. -/
def jsonEscapeChar (c : Char) : List Char :=
  if c = '"' then ['\\', '"']
  else if c = '\\' then ['\\', '\\']
  else if c = '\n' then ['\\', 'n']
  else if c = '\r' then ['\\', 'r']
  else if c = '\t' then ['\\', 't']
  else if c.toNat = 8 then ['\\', 'b']
  else if c.toNat = 12 then ['\\', 'f']
  else if c.toNat < 32 then
    ['\\', 'u', '0', '0', Nat.digitChar (c.toNat / 16), Nat.digitChar (c.toNat % 16)]
  else [c]

def jsonEscape (s : String) : String := ⟨(s.data.map jsonEscapeChar).flatten⟩

def quoteJson (s : String) : String := "\"" ++ jsonEscape s ++ "\""

/-- JSON.stringify of the envelope (keys in insertion order, as in V8). -/
def serializePayload (p : WebhookPayload) : String :=
  "\x7b\"event\":" ++ quoteJson p.event ++
  ",\"timestamp\":" ++ quoteJson p.timestamp ++
  ",\"data\":" ++ quoteJson p.data ++
  ",\"webhookId\":" ++ quoteJson p.webhookId ++ "\x7d"

/-- generateSignature: rolling hash of secret + JSON.stringify(payload),
then Math.abs(...).toString(16). -/
def generateSignature (payload : WebhookPayload) (secret : String) : String :=
  toHex (hashString (secret ++ serializePayload payload)).natAbs

/-- verifyWebhookSignature: recompute and compare. -/
def verifyWebhookSignature (payload : WebhookPayload) (signature secret : String) : Bool :=
  signature == generateSignature payload secret

/-! ## Credential manager (gmail.ts, linkedin.ts, oauth.ts)

A provider token-endpoint response is an explicit input.  `ok` is
`response.ok` (2xx); `expires_in` is in seconds; `refresh_token` may be
absent from the JSON body. -/

structure TokenResponse where
  ok : Bool
  access_token : String
  refresh_token : Option String
  expires_in : Nat
  errorBody : String
deriving DecidableEq

/-- gmail.ts GmailTokens: the stored refresh token is a plain string. -/
structure GmailTokens where
  access_token : String
  refresh_token : String
  expires_at : Nat
deriving DecidableEq

/-- gmail.ts (Twitter half) TwitterTokens: the stored refresh token is
whatever `data.refresh_token` held, possibly absent at runtime. -/
structure TwitterTokens where
  access_token : String
  refresh_token : Option String
  expires_at : Nat
deriving DecidableEq

structure LinkedInTokens where
  access_token : String
  refresh_token : Option String
  expires_at : Nat
deriving DecidableEq

namespace Gmail

/-- gmail.ts refreshAccessToken: on non-2xx throws without writing; on
success stores \x7b data.access_token, the *passed-in* refreshToken,
Date.now() + expires_in*1000 \x7d and returns the new tokens.
Result: (outcome, store after the call, with `store` the prior store). -/
def refreshAccessToken (refreshToken : String) (resp : TokenResponse) (now : Nat)
    (store : Option GmailTokens) : Except String GmailTokens × Option GmailTokens :=
  if resp.ok then
    let newTokens : GmailTokens :=
      ⟨resp.access_token, refreshToken, now + resp.expires_in * 1000⟩
    (.ok newTokens, some newTokens)
  else
    (.error "Failed to refresh Gmail access token", store)

/-- gmail.ts getValidAccessToken: refresh iff expires_at < now + 300000.
Result: (outcome, store after the call, number of refresh calls issued). -/
def getValidAccessToken (store : Option GmailTokens) (now : Nat) (resp : TokenResponse) :
    Except String String × Option GmailTokens × Nat :=
  match store with
  | none => (.error "Gmail not connected. Please authenticate in Settings.", none, 0)
  | some tokens =>
    if tokens.expires_at < now + 300000 then
      match refreshAccessToken tokens.refresh_token resp now (some tokens) with
      | (.ok newTokens, store1) => (.ok newTokens.access_token, store1, 1)
      | (.error e, store1) => (.error e, store1, 1)
    else
      (.ok tokens.access_token, some tokens, 0)

end Gmail

namespace Twitter

/-- gmail.ts (Twitter half) refreshAccessToken: on success stores
\x7b data.access_token, data.refresh_token (the *response* field, even if
absent), Date.now() + expires_in*1000 \x7d. -/
def refreshAccessToken (refreshToken : String) (resp : TokenResponse) (now : Nat)
    (store : Option TwitterTokens) : Except String TwitterTokens × Option TwitterTokens :=
  if resp.ok then
    let newTokens : TwitterTokens :=
      ⟨resp.access_token, resp.refresh_token, now + resp.expires_in * 1000⟩
    (.ok newTokens, some newTokens)
  else
    (.error "Failed to refresh Twitter access token", store)

/-- Twitter getValidAccessToken: same 5-minute margin as Gmail. -/
def getValidAccessToken (store : Option TwitterTokens) (now : Nat) (resp : TokenResponse) :
    Except String String × Option TwitterTokens × Nat :=
  match store with
  | none => (.error "Twitter not connected. Please authenticate in Settings.", none, 0)
  | some tokens =>
    if tokens.expires_at < now + 300000 then
      match refreshAccessToken (tokens.refresh_token.getD "") resp now (some tokens) with
      | (.ok newTokens, store1) => (.ok newTokens.access_token, store1, 1)
      | (.error e, store1) => (.error e, store1, 1)
    else
      (.ok tokens.access_token, some tokens, 0)

end Twitter

namespace LinkedIn

/-- linkedin.ts getValidAccessToken: no refresh path exists at all; the
token is returned until the expiry instant and an error is thrown after.
Result: (outcome, number of refresh calls issued — always 0). -/
def getValidAccessToken (store : Option LinkedInTokens) (now : Nat) :
    Except String String × Nat :=
  match store with
  | none => (.error "LinkedIn not connected. Please authenticate in Settings.", 0)
  | some tokens =>
    if tokens.expires_at < now then
      (.error "LinkedIn token expired. Please reconnect in Settings.", 0)
    else
      (.ok tokens.access_token, 0)

end LinkedIn

/-! oauth.ts exchangeCodeForTokens.  The credential store is the
`integrations` table: one optional config per integration name. -/

inductive IntegrationName where
  | Gmail | LinkedIn | Twitter | Facebook
deriving DecidableEq

structure StoredConfig where
  access_token : String
  refresh_token : Option String
  expires_at : Nat
deriving DecidableEq

/-- oauth.ts exchangeCodeForTokens: POSTs the code to the token endpoint;
on non-2xx throws carrying the provider error body, before any store
write; on success upserts \x7b access_token, refresh_token, now +
expires_in*1000 \x7d for the integration.  Result: (outcome, store after
the call). -/
def exchangeCodeForTokens (integration : IntegrationName) (resp : TokenResponse) (now : Nat)
    (store : IntegrationName → Option StoredConfig) :
    Except String Unit × (IntegrationName → Option StoredConfig) :=
  if resp.ok then
    (.ok (),
     fun i =>
       if i = integration then
         some ⟨resp.access_token, resp.refresh_token, now + resp.expires_in * 1000⟩
       else store i)
  else
    (.error ("Failed to exchange code for tokens: " ++ resp.errorBody), store)

/-! ## Webhook dispatcher (webhooks.ts)

`fetch` outcomes are an explicit oracle: attempt number to either an
HTTP response (status, body text) or a network-level rejection. -/

structure Webhook where
  id : String
  url : String
  events : List String
  secret : String
  isActive : Bool
  lastTriggered : Option String
deriving DecidableEq

inductive FetchOutcome where
  | response (status : Nat) (body : String)
  | networkError (msg : String)
deriving DecidableEq

/-- response.ok: status in the 2xx range. -/
def responseOk (status : Nat) : Bool := 200 ≤ status && status < 300

def isFailure (o : FetchOutcome) : Bool :=
  match o with
  | .response status _ => !(responseOk status)
  | .networkError _ => true

/-- responseBody.substring(0, 1000): keep at most the first 1000
characters of the response body. -/
def truncateBody (s : String) : String := ⟨s.data.take 1000⟩

/-- One row of webhook_logs, with the logical time (ms) at which the
attempt ran. -/
structure WebhookLogEntry where
  webhookId : String
  event : String
  responseStatus : Nat
  responseBody : String
  success : Bool
  attempt : Nat
  time : Nat
deriving DecidableEq

/-- createWebhook: generates a secret and inserts \x7b url, events, secret,
is_active: true \x7d.  The generated secret and the row id come from the
environment; `dbResult` is the insert outcome.  No validation of url or
events is performed. -/
def createWebhook (url : String) (events : List String) (secret : String) (id : String)
    (dbResult : Except String Unit) : Except String Webhook :=
  match dbResult with
  | .error e => .error e
  | .ok _ => .ok ⟨id, url, events, secret, true, none⟩

/-- sendWebhook's recursion, from a given attempt number at logical time
t (ms).  A failed attempt below number 3 schedules the next attempt
2^attempt seconds later; attempt 3 never retries.  Every attempt appends
one log row: the response path truncates the body to 1000 characters,
the network-error path logs status 0 with the raw error message. -/
def sendWebhookFrom (w : Webhook) (event : String) (oracle : Nat → FetchOutcome)
    (attempt : Nat) (t : Nat) : List WebhookLogEntry :=
  match oracle attempt with
  | .response status body =>
    let entry : WebhookLogEntry :=
      ⟨w.id, event, status, truncateBody body, responseOk status, attempt, t⟩
    if responseOk status then
      [entry]
    else if h : attempt < 3 then
      entry :: sendWebhookFrom w event oracle (attempt + 1) (t + 2 ^ attempt * 1000)
    else
      [entry]
  | .networkError msg =>
    let entry : WebhookLogEntry := ⟨w.id, event, 0, msg, false, attempt, t⟩
    if h : attempt < 3 then
      entry :: sendWebhookFrom w event oracle (attempt + 1) (t + 2 ^ attempt * 1000)
    else
      [entry]
termination_by 3 - attempt
decreasing_by all_goals omega

def sendWebhook (w : Webhook) (event : String) (oracle : Nat → FetchOutcome) (t : Nat) :
    List WebhookLogEntry :=
  sendWebhookFrom w event oracle 1 t

/-- triggerWebhook: look up the active webhooks whose event list contains
the event, and hand each to sendWebhook.  Result: each targeted webhook
paired with the delivery log it produced. -/
def triggerWebhook (webhooks : List Webhook) (event : String)
    (oracle : String → Nat → FetchOutcome) (t : Nat) :
    List (Webhook × List WebhookLogEntry) :=
  (webhooks.filter (fun w => w.isActive && w.events.contains event)).map
    (fun w => (w, sendWebhook w event (oracle w.id) t))

/-! Exception-explicit variant: the fetch call is a fallible action and
the try/catch of sendWebhook is the Except handler, so that
non-propagation of delivery failures is a statement, not a typing
artifact. -/

def fetchE (o : FetchOutcome) : Except String (Nat × String) :=
  match o with
  | .response status body => .ok (status, body)
  | .networkError msg => .error msg

def sendWebhookFromE (w : Webhook) (event : String) (oracle : Nat → FetchOutcome)
    (attempt : Nat) (t : Nat) : Except String (List WebhookLogEntry) :=
  match fetchE (oracle attempt) with
  | .ok (status, body) =>
    let entry : WebhookLogEntry :=
      ⟨w.id, event, status, truncateBody body, responseOk status, attempt, t⟩
    if responseOk status then
      .ok [entry]
    else if h : attempt < 3 then
      match sendWebhookFromE w event oracle (attempt + 1) (t + 2 ^ attempt * 1000) with
      | .ok rest => .ok (entry :: rest)
      | .error e => .error e
    else
      .ok [entry]
  | .error msg =>
    let entry : WebhookLogEntry := ⟨w.id, event, 0, msg, false, attempt, t⟩
    if h : attempt < 3 then
      match sendWebhookFromE w event oracle (attempt + 1) (t + 2 ^ attempt * 1000) with
      | .ok rest => .ok (entry :: rest)
      | .error e => .error e
    else
      .ok [entry]
termination_by 3 - attempt
decreasing_by all_goals omega

def triggerWebhookE (webhooks : List Webhook) (event : String)
    (oracle : String → Nat → FetchOutcome) (t : Nat) :
    Except String (List (Webhook × List WebhookLogEntry)) :=
  (webhooks.filter (fun w => w.isActive && w.events.contains event)).foldr
    (fun w acc =>
      match sendWebhookFromE w event (oracle w.id) 1 t with
      | .error e => .error e
      | .ok logs =>
        match acc with
        | .error e => .error e
        | .ok rest => .ok ((w, logs) :: rest))
    (.ok [])

/-! ## Helper lemmas -/

theorem truncateBody_length_le (s : String) : (truncateBody s).length ≤ 1000 := by
  show (s.data.take 1000).length ≤ 1000
  simpa using List.length_take_le 1000 s.data

theorem sendWebhookFrom_fail_cons (w : Webhook) (event : String) (oracle : Nat → FetchOutcome)
    (attempt t : Nat) (hf : isFailure (oracle attempt) = true) (hlt : attempt < 3) :
    ∃ status body,
      sendWebhookFrom w event oracle attempt t =
        ⟨w.id, event, status, body, false, attempt, t⟩ ::
          sendWebhookFrom w event oracle (attempt + 1) (t + 2 ^ attempt * 1000) := by
  rw [sendWebhookFrom.eq_def]
  rcases ho : oracle attempt with ⟨st, bd⟩ | m
  · have hok : responseOk st = false := by
      rw [ho] at hf
      simpa [isFailure] using hf
    exact ⟨st, truncateBody bd, by simp [hok, hlt]⟩
  · exact ⟨0, m, by simp [hlt]⟩

theorem sendWebhookFrom_fail_last (w : Webhook) (event : String) (oracle : Nat → FetchOutcome)
    (t : Nat) (hf : isFailure (oracle 3) = true) :
    ∃ status body,
      sendWebhookFrom w event oracle 3 t = [⟨w.id, event, status, body, false, 3, t⟩] := by
  rw [sendWebhookFrom.eq_def]
  rcases ho : oracle 3 with ⟨st, bd⟩ | m
  · have hok : responseOk st = false := by
      rw [ho] at hf
      simpa [isFailure] using hf
    exact ⟨st, truncateBody bd, by simp [hok]⟩
  · exact ⟨0, m, by simp⟩

theorem sendWebhookFrom_ne_nil (w : Webhook) (event : String) (oracle : Nat → FetchOutcome)
    (attempt t : Nat) : sendWebhookFrom w event oracle attempt t ≠ [] := by
  rw [sendWebhookFrom.eq_def]
  rcases oracle attempt with ⟨st, bd⟩ | m <;> dsimp only []
  · split
    · simp
    · split <;> simp
  · split <;> simp

theorem sendWebhookFromE_ok_aux (w : Webhook) (event : String) (oracle : Nat → FetchOutcome) :
    ∀ (k attempt t : Nat), 3 - attempt ≤ k →
      sendWebhookFromE w event oracle attempt t =
        .ok (sendWebhookFrom w event oracle attempt t) := by
  intro k
  induction k with
  | zero =>
    intro attempt t hk
    rw [sendWebhookFromE.eq_def, sendWebhookFrom.eq_def]
    rcases oracle attempt with ⟨st, bd⟩ | m <;> dsimp only [fetchE]
    · split
      · rfl
      · split
        · omega
        · rfl
    · split
      · omega
      · rfl
  | succ k ih =>
    intro attempt t hk
    rw [sendWebhookFromE.eq_def, sendWebhookFrom.eq_def]
    rcases oracle attempt with ⟨st, bd⟩ | m <;> dsimp only [fetchE]
    · split
      · rfl
      · split
        · rw [ih (attempt + 1) (t + 2 ^ attempt * 1000) (by omega)]
        · rfl
    · split
      · rw [ih (attempt + 1) (t + 2 ^ attempt * 1000) (by omega)]
      · rfl

theorem triggerWebhookE_ok (webhooks : List Webhook) (event : String)
    (oracle : String → Nat → FetchOutcome) (t : Nat) :
    triggerWebhookE webhooks event oracle t = .ok (triggerWebhook webhooks event oracle t) := by
  unfold triggerWebhookE triggerWebhook sendWebhook
  induction webhooks.filter (fun w => w.isActive && w.events.contains event) with
  | nil => rfl
  | cons w ws ih =>
    simp only [List.foldr_cons, List.map_cons, ih,
      sendWebhookFromE_ok_aux w event (oracle w.id) 3 1 t (by omega)]

theorem sendWebhookFrom_success_iff (w : Webhook) (event : String)
    (oracle : Nat → FetchOutcome) :
    ∀ (k attempt t : Nat), 3 - attempt ≤ k →
      ∀ e ∈ sendWebhookFrom w event oracle attempt t,
        e.success = false → isFailure (oracle e.attempt) = true := by
  intro k
  induction k with
  | zero =>
    intro attempt t hk e he hfalse
    rw [sendWebhookFrom.eq_def] at he
    rcases ho : oracle attempt with ⟨st, bd⟩ | m <;> rw [ho] at he <;> dsimp only [] at he
    · split at he
      · simp at he
        subst he
        simp at hfalse
        simp [isFailure, ho, hfalse]
      · split at he
        · omega
        · simp at he
          subst he
          simp [isFailure, ho]
          simp at hfalse
          exact hfalse
    · split at he
      · omega
      · simp at he
        subst he
        simp [isFailure, ho]
  | succ k ih =>
    intro attempt t hk e he hfalse
    rw [sendWebhookFrom.eq_def] at he
    rcases ho : oracle attempt with ⟨st, bd⟩ | m <;> rw [ho] at he <;> dsimp only [] at he
    · split at he
      · simp at he
        subst he
        simp at hfalse
        simp [isFailure, ho, hfalse]
      · split at he
        · rcases List.mem_cons.mp he with h | h
          · subst h
            simp at hfalse
            simp [isFailure, ho, hfalse]
          · exact ih (attempt + 1) (t + 2 ^ attempt * 1000) (by omega) e h hfalse
        · simp at he
          subst he
          simp [isFailure, ho]
          simp at hfalse
          exact hfalse
    · split at he
      · rcases List.mem_cons.mp he with h | h
        · subst h
          simp [isFailure, ho]
        · exact ih (attempt + 1) (t + 2 ^ attempt * 1000) (by omega) e h hfalse
      · simp at he
        subst he
        simp [isFailure, ho]

theorem sendWebhookFrom_body_cap (w : Webhook) (event : String)
    (oracle : Nat → FetchOutcome) :
    ∀ (k attempt t : Nat), 3 - attempt ≤ k →
      ∀ e ∈ sendWebhookFrom w event oracle attempt t,
        e.responseStatus = 0 ∨ e.responseBody.length ≤ 1000 := by
  intro k
  induction k with
  | zero =>
    intro attempt t hk e he
    rw [sendWebhookFrom.eq_def] at he
    rcases ho : oracle attempt with ⟨st, bd⟩ | m <;> rw [ho] at he <;> dsimp only [] at he
    · split at he
      · simp at he
        subst he
        exact Or.inr (truncateBody_length_le bd)
      · split at he
        · omega
        · simp at he
          subst he
          exact Or.inr (truncateBody_length_le bd)
    · split at he
      · omega
      · simp at he
        subst he
        exact Or.inl rfl
  | succ k ih =>
    intro attempt t hk e he
    rw [sendWebhookFrom.eq_def] at he
    rcases ho : oracle attempt with ⟨st, bd⟩ | m <;> rw [ho] at he <;> dsimp only [] at he
    · split at he
      · simp at he
        subst he
        exact Or.inr (truncateBody_length_le bd)
      · split at he
        · rcases List.mem_cons.mp he with h | h
          · subst h
            exact Or.inr (truncateBody_length_le bd)
          · exact ih (attempt + 1) (t + 2 ^ attempt * 1000) (by omega) e h
        · simp at he
          subst he
          exact Or.inr (truncateBody_length_le bd)
    · split at he
      · rcases List.mem_cons.mp he with h | h
        · subst h
          exact Or.inl rfl
        · exact ih (attempt + 1) (t + 2 ^ attempt * 1000) (by omega) e h
      · simp at he
        subst he
        exact Or.inl rfl

/-! ## Rolling-hash arithmetic: the signed 32-bit hash read in ZMod (2^32) -/

theorem uint32_toNat_inj (a b : UInt32) (h : a.toNat = b.toNat) : a = b := by
  cases a; cases b
  congr 1
  apply BitVec.eq_of_toNat_eq
  exact h

theorem char_toNat_inj (a b : Char) (h : a.toNat = b.toNat) : a = b := by
  apply Char.eq_of_val_eq
  exact uint32_toNat_inj a.val b.val h

theorem char_toNat_lt (c : Char) : c.toNat < 2 ^ 32 := by
  have := c.val.toNat_lt
  simpa [Char.toNat] using this

theorem isUnit_31_zmod : IsUnit (31 : ZMod (2 ^ 32)) := by
  have h : IsUnit ((31 : ℕ) : ZMod (2 ^ 32)) := by
    rw [ZMod.isUnit_iff_coprime]
    decide
  simpa using h

theorem toInt32_intCast (n : Int) :
    ((toInt32 n : Int) : ZMod (2 ^ 32)) = (n : ZMod (2 ^ 32)) := by
  have h : ((2 ^ 32 : ℕ) : ℤ) = (2 : ℤ) ^ 32 := by norm_cast
  unfold toInt32
  rw [Int.cast_sub, ← h, ZMod.intCast_mod]
  push_cast
  ring

theorem hashStep_intCast (h : Int) (c : Nat) :
    ((hashStep h c : Int) : ZMod (2 ^ 32)) =
      31 * (h : ZMod (2 ^ 32)) + (c : ZMod (2 ^ 32)) := by
  unfold hashStep
  rw [toInt32_intCast, Int.cast_add, Int.cast_sub, toInt32_intCast]
  push_cast
  ring

theorem hash_foldl_cast (l : List Char) : ∀ h : Int,
    ((l.foldl (fun h c => hashStep h c.toNat) h : Int) : ZMod (2 ^ 32)) =
      l.foldl (fun hz c => 31 * hz + (c.toNat : ZMod (2 ^ 32))) ((h : Int) : ZMod (2 ^ 32)) := by
  induction l with
  | nil => intro h; rfl
  | cons c l ih =>
    intro h
    rw [List.foldl_cons, List.foldl_cons, ih, hashStep_intCast]

theorem hash_zfold_inj (l : List Char) : ∀ h1 h2 : ZMod (2 ^ 32),
    l.foldl (fun hz c => 31 * hz + (c.toNat : ZMod (2 ^ 32))) h1 =
      l.foldl (fun hz c => 31 * hz + (c.toNat : ZMod (2 ^ 32))) h2 → h1 = h2 := by
  induction l with
  | nil => intro h1 h2 h; exact h
  | cons c l ih =>
    intro h1 h2 h
    rw [List.foldl_cons, List.foldl_cons] at h
    have h2' := ih _ _ h
    have h3 := add_right_cancel h2'
    exact isUnit_31_zmod.mul_left_cancel h3

/-- Changing a single character of the hashed character sequence always
changes the signed 32-bit hash: the step map h ↦ 31h + c is injective
modulo 2^32 because 31 is odd. -/
theorem hashChars_single_byte_ne (pre post : List Char) (a b : Char) (hab : a ≠ b) :
    hashChars (pre ++ a :: post) ≠ hashChars (pre ++ b :: post) := by
  intro heq
  have hz := congrArg (fun n : ℤ => (n : ZMod (2 ^ 32))) heq
  simp only [hashChars] at hz
  rw [hash_foldl_cast, hash_foldl_cast, List.foldl_append, List.foldl_append,
    List.foldl_cons, List.foldl_cons] at hz
  have h1 := hash_zfold_inj post _ _ hz
  have h2 := add_left_cancel h1
  have h3 : a.toNat = b.toNat := by
    have hv1 := ZMod.val_cast_of_lt (char_toNat_lt a)
    have hv2 := ZMod.val_cast_of_lt (char_toNat_lt b)
    rw [← hv1, ← hv2, h2]
  exact hab (char_toNat_inj a b h3)

/-! Chunked evaluation of the hash over the two colliding envelopes
(evaluating the 99-character fold in one go exhausts the elaborator). -/

theorem hash_chunk1 :
    List.foldl (fun h c => hashStep h c.toNat) 0 "s\x7b\"event\":\"lead.created\",".data =
      1190863434 := by decide

theorem hash_chunk2 :
    List.foldl (fun h c => hashStep h c.toNat) 1190863434 "\"timestamp\":\"2026-01-01T0".data =
      1130909098 := by decide

theorem hash_chunk3 :
    List.foldl (fun h c => hashStep h c.toNat) 1130909098 "0:00:00.000Z\",\"data\":\"PmI".data =
      279163698 := by decide

theorem hash_chunk4t :
    List.foldl (fun h c => hashStep h c.toNat) 279163698 "LtJmVt\",\"webhookId\":\"w\"\x7d".data =
      -1761551683 := by decide

theorem hash_chunk4z :
    List.foldl (fun h c => hashStep h c.toNat) 279163698 "LtJmVz\",\"webhookId\":\"w\"\x7d".data =
      1761551683 := by decide

theorem hash_p1 :
    hashString ("s" ++ serializePayload ⟨"lead.created", "2026-01-01T00:00:00.000Z",
      "PmILtJmVt", "w"⟩) = -1761551683 := by
  have e : ("s" ++ serializePayload ⟨"lead.created", "2026-01-01T00:00:00.000Z",
      "PmILtJmVt", "w"⟩).data =
      "s\x7b\"event\":\"lead.created\",".data ++
        ("\"timestamp\":\"2026-01-01T0".data ++
          ("0:00:00.000Z\",\"data\":\"PmI".data ++
            "LtJmVt\",\"webhookId\":\"w\"\x7d".data)) := by decide
  unfold hashString hashChars
  rw [e, List.foldl_append, List.foldl_append, List.foldl_append,
    hash_chunk1, hash_chunk2, hash_chunk3, hash_chunk4t]

theorem hash_p2 :
    hashString ("s" ++ serializePayload ⟨"lead.created", "2026-01-01T00:00:00.000Z",
      "PmILtJmVz", "w"⟩) = 1761551683 := by
  have e : ("s" ++ serializePayload ⟨"lead.created", "2026-01-01T00:00:00.000Z",
      "PmILtJmVz", "w"⟩).data =
      "s\x7b\"event\":\"lead.created\",".data ++
        ("\"timestamp\":\"2026-01-01T0".data ++
          ("0:00:00.000Z\",\"data\":\"PmI".data ++
            "LtJmVz\",\"webhookId\":\"w\"\x7d".data)) := by decide
  unfold hashString hashChars
  rw [e, List.foldl_append, List.foldl_append, List.foldl_append,
    hash_chunk1, hash_chunk2, hash_chunk3, hash_chunk4z]

/-! ## Claim theorems -/

/-- C1 (amended): for Gmail and Twitter, a stored expiry within 5 minutes
(300000 ms) of now makes getValidAccessToken issue exactly one refresh
call before returning; on refresh success the persisted expiry is now +
expires_in * 1000, which is strictly later than the old expiry whenever
the provider-reported lifetime exceeds the 5-minute margin.  LinkedIn's
getValidAccessToken never issues a refresh call. -/
theorem getValidAccessToken_margin_refresh
    (gt : GmailTokens) (tt : TwitterTokens) (ls : Option LinkedInTokens)
    (now nowL : Nat) (resp : TokenResponse)
    (hg : gt.expires_at < now + 300000) (ht : tt.expires_at < now + 300000) :
    (Gmail.getValidAccessToken (some gt) now resp).2.2 = 1 ∧
    (resp.ok = true →
      (Gmail.getValidAccessToken (some gt) now resp).2.1 =
        some ⟨resp.access_token, gt.refresh_token, now + resp.expires_in * 1000⟩ ∧
      (300000 < resp.expires_in * 1000 → gt.expires_at < now + resp.expires_in * 1000)) ∧
    (Twitter.getValidAccessToken (some tt) now resp).2.2 = 1 ∧
    (resp.ok = true →
      (Twitter.getValidAccessToken (some tt) now resp).2.1 =
        some ⟨resp.access_token, resp.refresh_token, now + resp.expires_in * 1000⟩ ∧
      (300000 < resp.expires_in * 1000 → tt.expires_at < now + resp.expires_in * 1000)) ∧
    (LinkedIn.getValidAccessToken ls nowL).2 = 0 := by
  refine ⟨?_, ?_, ?_, ?_, ?_⟩
  · rcases hok : resp.ok with _ | _ <;>
      simp [Gmail.getValidAccessToken, Gmail.refreshAccessToken, hg, hok]
  · intro hok
    constructor
    · simp [Gmail.getValidAccessToken, Gmail.refreshAccessToken, hg, hok]
    · intro hl
      omega
  · rcases hok : resp.ok with _ | _ <;>
      simp [Twitter.getValidAccessToken, Twitter.refreshAccessToken, ht, hok]
  · intro hok
    constructor
    · simp [Twitter.getValidAccessToken, Twitter.refreshAccessToken, ht, hok]
    · intro hl
      omega
  · rcases ls with _ | tokens
    · rfl
    · by_cases hlt : tokens.expires_at < nowL <;> simp [LinkedIn.getValidAccessToken, hlt]

/-- Witness for C1 at a concrete credential and response. -/
theorem getValidAccessToken_margin_refresh_witness :
    ((Gmail.getValidAccessToken (some ⟨"a1", "r1", 1100000⟩) 1000000
        ⟨true, "a2", none, 3600, ""⟩).2.2 = 1 ∧
      (true = true →
        (Gmail.getValidAccessToken (some ⟨"a1", "r1", 1100000⟩) 1000000
            ⟨true, "a2", none, 3600, ""⟩).2.1 = some ⟨"a2", "r1", 1000000 + 3600 * 1000⟩ ∧
        (300000 < 3600 * 1000 → 1100000 < 1000000 + 3600 * 1000)) ∧
      (Twitter.getValidAccessToken (some ⟨"a1", some "r1", 1100000⟩) 1000000
          ⟨true, "a2", none, 3600, ""⟩).2.2 = 1 ∧
      (true = true →
        (Twitter.getValidAccessToken (some ⟨"a1", some "r1", 1100000⟩) 1000000
            ⟨true, "a2", none, 3600, ""⟩).2.1 = some ⟨"a2", none, 1000000 + 3600 * 1000⟩ ∧
        (300000 < 3600 * 1000 → 1100000 < 1000000 + 3600 * 1000)) ∧
      (LinkedIn.getValidAccessToken (some ⟨"a1", some "r1", 1100000⟩) 1000000).2 = 0) :=
  getValidAccessToken_margin_refresh ⟨"a1", "r1", 1100000⟩ ⟨"a1", some "r1", 1100000⟩
    (some ⟨"a1", some "r1", 1100000⟩) 1000000 1000000 ⟨true, "a2", none, 3600, ""⟩
    (by decide) (by decide)

/-- C1 counterexample: LinkedIn with an expiry 100 ms away (well within
the 5-minute margin) returns the stored token with zero refresh calls;
and a successful Gmail refresh with a provider-reported lifetime of 100
seconds persists an expiry strictly EARLIER than the old one. -/
theorem getValidAccessToken_counterexample :
    (LinkedIn.getValidAccessToken (some ⟨"tok", some "r", 1000100⟩) 1000000 =
      (.ok "tok", 0)) ∧
    (1000100 < 1000000 + 300000) ∧
    (Gmail.getValidAccessToken (some ⟨"old", "r", 1200000⟩) 1000000 ⟨true, "new", none, 100, ""⟩ =
      (.ok "new", some ⟨"new", "r", 1100000⟩, 1)) ∧
    (1200000 < 1000000 + 300000) ∧ (1100000 < 1200000) :=
  ⟨rfl, by decide, rfl, by decide, by decide⟩

/-- C2: when every delivery attempt fails, exactly three attempts are
logged with attempt numbers 1, 2, 3, all with success = false, at times
t, t + 2000 and t + 6000 ms: the delay before attempt 2 is 2^1 seconds,
before attempt 3 it is 2^2 seconds, and no attempt follows the third. -/
theorem sendWebhook_three_failed_attempts (w : Webhook) (event : String)
    (oracle : Nat → FetchOutcome) (t : Nat)
    (hf : ∀ n, isFailure (oracle n) = true) :
    ((sendWebhook w event oracle t).map (fun e => e.attempt) = [1, 2, 3]) ∧
    ((sendWebhook w event oracle t).map (fun e => e.success) = [false, false, false]) ∧
    ((sendWebhook w event oracle t).map (fun e => e.time) = [t, t + 2000, t + 6000]) := by
  obtain ⟨s1, b1, h1⟩ := sendWebhookFrom_fail_cons w event oracle 1 t (hf 1) (by omega)
  obtain ⟨s2, b2, h2⟩ :=
    sendWebhookFrom_fail_cons w event oracle 2 (t + 2 ^ 1 * 1000) (hf 2) (by omega)
  obtain ⟨s3, b3, h3⟩ :=
    sendWebhookFrom_fail_last w event oracle (t + 2 ^ 1 * 1000 + 2 ^ 2 * 1000) (hf 3)
  unfold sendWebhook
  rw [h1, h2, h3]
  refine ⟨by simp, by simp, by simp⟩

/-- Witness for C2 against an endpoint that always answers HTTP 500. -/
theorem sendWebhook_three_failed_attempts_witness :
    ((sendWebhook ⟨"w1", "https://example.com/hook", ["lead.created"], "sec", true, none⟩
        "lead.created" (fun _ => .response 500 "err") 0).map (fun e => e.attempt) =
      [1, 2, 3]) ∧
    ((sendWebhook ⟨"w1", "https://example.com/hook", ["lead.created"], "sec", true, none⟩
        "lead.created" (fun _ => .response 500 "err") 0).map (fun e => e.success) =
      [false, false, false]) ∧
    ((sendWebhook ⟨"w1", "https://example.com/hook", ["lead.created"], "sec", true, none⟩
        "lead.created" (fun _ => .response 500 "err") 0).map (fun e => e.time) =
      [0, 0 + 2000, 0 + 6000]) :=
  sendWebhook_three_failed_attempts ⟨"w1", "https://example.com/hook", ["lead.created"],
    "sec", true, none⟩ "lead.created" (fun _ => .response 500 "err") 0 (fun n => rfl)

/-- C3 (amended): the signature is deterministic — recomputing it over a
byte-identical envelope and identical secret gives the same string — and
a single-byte change always changes the signed 32-bit rolling hash; the
final Math.abs step, however, identifies a hash h with -h, so the hex
signature itself can collide on a single-byte change. -/
theorem generateSignature_deterministic_hash_sensitive (p : WebhookPayload)
    (secret : String) (pre post : List Char) (a b : Char) (hab : a ≠ b) :
    generateSignature p secret = generateSignature p secret ∧
    hashChars (pre ++ a :: post) ≠ hashChars (pre ++ b :: post) :=
  ⟨rfl, hashChars_single_byte_ne pre post a b hab⟩

/-- Witness for C3 at a concrete payload and a one-character change. -/
theorem generateSignature_deterministic_hash_sensitive_witness :
    (generateSignature ⟨"lead.created", "2026-01-01T00:00:00.000Z", "d", "w"⟩ "s" =
      generateSignature ⟨"lead.created", "2026-01-01T00:00:00.000Z", "d", "w"⟩ "s") ∧
    hashChars ([] ++ 'a' :: []) ≠ hashChars ([] ++ 'b' :: []) :=
  generateSignature_deterministic_hash_sensitive
    ⟨"lead.created", "2026-01-01T00:00:00.000Z", "d", "w"⟩ "s" [] [] 'a' 'b' (by decide)

/-- C3 counterexample: two envelopes whose data fields differ in exactly
one byte produce byte-identical signatures under the same secret: the
two rolling hashes are negatives of each other and Math.abs collapses
them to the same hex string. -/
theorem generateSignature_collision :
    (generateSignature ⟨"lead.created", "2026-01-01T00:00:00.000Z", "PmILtJmVt", "w"⟩ "s" =
      generateSignature ⟨"lead.created", "2026-01-01T00:00:00.000Z", "PmILtJmVz", "w"⟩ "s") ∧
    (("PmILtJmVt" : String) ≠ "PmILtJmVz") ∧
    (("PmILtJmVt" : String).length = ("PmILtJmVz" : String).length) ∧
    ((List.zip ("PmILtJmVt" : String).data ("PmILtJmVz" : String).data).countP
      (fun q => q.1 != q.2) = 1) := by
  refine ⟨?_, by decide, by decide, by decide⟩
  unfold generateSignature
  rw [hash_p1, hash_p2]
  decide

/-- C4 (amended): createWebhook performs no validation of the url or the
event list: for every url and every (possibly empty) event list it
generates the subscription row with is_active = true whenever the insert
succeeds, and fails only when the datastore insert fails. -/
theorem createWebhook_no_validation (url : String) (events : List String)
    (secret id : String) :
    createWebhook url events secret id (.ok ()) = .ok ⟨id, url, events, secret, true, none⟩ ∧
    ∀ e, createWebhook url events secret id (.error e) = .error e :=
  ⟨rfl, fun _ => rfl⟩

/-- Witness for C4 at a concrete registration. -/
theorem createWebhook_no_validation_witness :
    createWebhook "https://a.example/hook" ["lead.created"] "S3cr3t" "wh-2" (.ok ()) =
      .ok ⟨"wh-2", "https://a.example/hook", ["lead.created"], "S3cr3t", true, none⟩ ∧
    ∀ e, createWebhook "https://a.example/hook" ["lead.created"] "S3cr3t" "wh-2" (.error e) =
      .error e :=
  createWebhook_no_validation "https://a.example/hook" ["lead.created"] "S3cr3t" "wh-2"

/-- C4 counterexample: createWebhook with an empty event set and a
non-URL string succeeds and creates the subscription instead of failing
with InvalidSubscriptionError. -/
theorem createWebhook_accepts_invalid_input :
    createWebhook "not-a-url" [] "A1b2C3d4" "wh-1" (.ok ()) =
      .ok ⟨"wh-1", "not-a-url", [], "A1b2C3d4", true, none⟩ :=
  rfl

/-- C5: when the provider's token endpoint answers non-2xx,
exchangeCodeForTokens fails with an error carrying the provider's error
body and the credential store is left exactly unchanged. -/
theorem exchangeCodeForTokens_failure_no_write (integration : IntegrationName)
    (resp : TokenResponse) (now : Nat) (store : IntegrationName → Option StoredConfig)
    (h : resp.ok = false) :
    exchangeCodeForTokens integration resp now store =
      (.error ("Failed to exchange code for tokens: " ++ resp.errorBody), store) := by
  simp [exchangeCodeForTokens, h]

/-- Witness for C5 at a concrete rejected exchange. -/
theorem exchangeCodeForTokens_failure_no_write_witness :
    exchangeCodeForTokens .Gmail ⟨false, "", none, 0, "invalid_grant"⟩ 5 (fun _ => none) =
      (.error ("Failed to exchange code for tokens: " ++ "invalid_grant"), fun _ => none) :=
  exchangeCodeForTokens_failure_no_write .Gmail ⟨false, "", none, 0, "invalid_grant"⟩ 5
    (fun _ => none) rfl

/-- C6: publish attempts delivery to exactly the active subscriptions
whose event set contains the event — the targeted list is the filter of
the subscription list — and every targeted subscription gets at least
one logged attempt, while non-targeted ones appear nowhere. -/
theorem triggerWebhook_exact_targets (webhooks : List Webhook) (event : String)
    (oracle : String → Nat → FetchOutcome) (t : Nat) :
    ((triggerWebhook webhooks event oracle t).map Prod.fst =
      webhooks.filter (fun w => w.isActive && w.events.contains event)) ∧
    (∀ pr ∈ triggerWebhook webhooks event oracle t, pr.2 ≠ []) := by
  constructor
  · unfold triggerWebhook
    rw [List.map_map]
    exact List.map_id _
  · intro pr hpr
    simp only [triggerWebhook, List.mem_map] at hpr
    obtain ⟨w, hw, rfl⟩ := hpr
    exact sendWebhookFrom_ne_nil w event (oracle w.id) 1 t

/-- Witness for C6: two active subscriptions, one subscribed to
lead.created and one only to email.sent — only the first is targeted. -/
theorem triggerWebhook_exact_targets_witness :
    ((triggerWebhook [⟨"w1", "https://a.example", ["lead.created"], "s1", true, none⟩,
        ⟨"w2", "https://b.example", ["email.sent"], "s2", true, none⟩] "lead.created"
        (fun _ _ => .response 200 "ok") 0).map Prod.fst =
      List.filter (fun w => w.isActive && w.events.contains "lead.created")
        [⟨"w1", "https://a.example", ["lead.created"], "s1", true, none⟩,
         ⟨"w2", "https://b.example", ["email.sent"], "s2", true, none⟩]) ∧
    (∀ pr ∈ triggerWebhook [⟨"w1", "https://a.example", ["lead.created"], "s1", true, none⟩,
        ⟨"w2", "https://b.example", ["email.sent"], "s2", true, none⟩] "lead.created"
        (fun _ _ => .response 200 "ok") 0, pr.2 ≠ []) :=
  triggerWebhook_exact_targets
    [⟨"w1", "https://a.example", ["lead.created"], "s1", true, none⟩,
     ⟨"w2", "https://b.example", ["email.sent"], "s2", true, none⟩]
    "lead.created" (fun _ _ => .response 200 "ok") 0

/-- C7 (amended): on every successful refresh the stored access token
and expiry are replaced; the Gmail refresh always retains the
previously stored refresh token (even when the provider issues a new
one), while the Twitter refresh always overwrites the stored refresh
token with the response's refresh-token field (even when the provider
issues none). -/
theorem refreshAccessToken_token_persistence (rt : String) (resp : TokenResponse)
    (now : Nat) (storeG : Option GmailTokens) (storeT : Option TwitterTokens)
    (h : resp.ok = true) :
    Gmail.refreshAccessToken rt resp now storeG =
      (.ok ⟨resp.access_token, rt, now + resp.expires_in * 1000⟩,
       some ⟨resp.access_token, rt, now + resp.expires_in * 1000⟩) ∧
    Twitter.refreshAccessToken rt resp now storeT =
      (.ok ⟨resp.access_token, resp.refresh_token, now + resp.expires_in * 1000⟩,
       some ⟨resp.access_token, resp.refresh_token, now + resp.expires_in * 1000⟩) := by
  constructor <;> simp [Gmail.refreshAccessToken, Twitter.refreshAccessToken, h]

/-- Witness for C7 at a concrete successful refresh. -/
theorem refreshAccessToken_token_persistence_witness :
    Gmail.refreshAccessToken "r1" ⟨true, "a2", some "r2", 3600, ""⟩ 1000
        (some ⟨"a1", "r1", 5000⟩) =
      (.ok ⟨"a2", "r1", 1000 + 3600 * 1000⟩, some ⟨"a2", "r1", 1000 + 3600 * 1000⟩) ∧
    Twitter.refreshAccessToken "r1" ⟨true, "a2", some "r2", 3600, ""⟩ 1000
        (some ⟨"a1", some "r1", 5000⟩) =
      (.ok ⟨"a2", some "r2", 1000 + 3600 * 1000⟩,
       some ⟨"a2", some "r2", 1000 + 3600 * 1000⟩) :=
  refreshAccessToken_token_persistence "r1" ⟨true, "a2", some "r2", 3600, ""⟩ 1000
    (some ⟨"a1", "r1", 5000⟩) (some ⟨"a1", some "r1", 5000⟩) rfl

/-- C7 counterexample: a Gmail refresh whose response carries a NEW
refresh token "r2" still stores the old "r1" (not replaced although the
provider issued one); a Twitter refresh whose response carries no
refresh token stores none (the old "r1" is not retained). -/
theorem refreshAccessToken_refresh_token_counterexample :
    ((Gmail.refreshAccessToken "r1" ⟨true, "a2", some "r2", 3600, ""⟩ 1000
        (some ⟨"a1", "r1", 5000⟩)).2 = some ⟨"a2", "r1", 3601000⟩) ∧
    ("r1" ≠ ("r2" : String)) ∧
    ((Twitter.refreshAccessToken "r1" ⟨true, "a2", none, 3600, ""⟩ 1000
        (some ⟨"a1", some "r1", 5000⟩)).2 = some ⟨"a2", none, 3601000⟩) ∧
    ((none : Option String) ≠ some "r1") :=
  ⟨rfl, by decide, rfl, by decide⟩

/-- C8: delivery failures are never propagated to the publisher — the
exception-explicit run of the dispatcher always returns ok with the same
delivery log — and failure information appears only as log rows: every
logged non-success row corresponds to a failing fetch outcome. -/
theorem webhook_failures_not_propagated (webhooks : List Webhook) (event : String)
    (oracle : String → Nat → FetchOutcome) (t : Nat) :
    triggerWebhookE webhooks event oracle t = .ok (triggerWebhook webhooks event oracle t) ∧
    (∀ pr ∈ triggerWebhook webhooks event oracle t, ∀ e ∈ pr.2,
      e.success = false → isFailure (oracle pr.1.id e.attempt) = true) := by
  refine ⟨triggerWebhookE_ok webhooks event oracle t, ?_⟩
  intro pr hpr e he hfalse
  simp only [triggerWebhook, List.mem_map] at hpr
  obtain ⟨w, hw, rfl⟩ := hpr
  exact sendWebhookFrom_success_iff w event (oracle w.id) 3 1 t (by omega) e he hfalse

/-- Witness for C8 against an endpoint that always rejects at the
network level. -/
theorem webhook_failures_not_propagated_witness :
    triggerWebhookE [⟨"w1", "https://a.example", ["lead.created"], "s1", true, none⟩]
        "lead.created" (fun _ _ => .networkError "ECONNREFUSED") 0 =
      .ok (triggerWebhook [⟨"w1", "https://a.example", ["lead.created"], "s1", true, none⟩]
        "lead.created" (fun _ _ => .networkError "ECONNREFUSED") 0) ∧
    (∀ pr ∈ triggerWebhook [⟨"w1", "https://a.example", ["lead.created"], "s1", true, none⟩]
        "lead.created" (fun _ _ => .networkError "ECONNREFUSED") 0, ∀ e ∈ pr.2,
      e.success = false →
        isFailure ((fun _ _ => FetchOutcome.networkError "ECONNREFUSED") pr.1.id e.attempt) =
          true) :=
  webhook_failures_not_propagated
    [⟨"w1", "https://a.example", ["lead.created"], "s1", true, none⟩]
    "lead.created" (fun _ _ => .networkError "ECONNREFUSED") 0

/-- C9 (amended): every delivery-log row either has a response body of
at most 1000 characters (all rows produced from an HTTP response are
truncated to 1000) or is a network-failure row, which is logged with
status 0 and the raw, untruncated error message. -/
theorem webhook_log_body_cap (w : Webhook) (event : String) (oracle : Nat → FetchOutcome)
    (t : Nat) (e : WebhookLogEntry) (he : e ∈ sendWebhook w event oracle t) :
    e.responseStatus = 0 ∨ e.responseBody.length ≤ 1000 :=
  sendWebhookFrom_body_cap w event oracle 3 1 t (by omega) e he

/-- Witness for C9 at a successful delivery whose body is truncated. -/
theorem webhook_log_body_cap_witness :
    (⟨"w1", "lead.created", 200, truncateBody "ok", true, 1, 0⟩ :
      WebhookLogEntry).responseStatus = 0 ∨
    (⟨"w1", "lead.created", 200, truncateBody "ok", true, 1, 0⟩ :
      WebhookLogEntry).responseBody.length ≤ 1000 :=
  webhook_log_body_cap ⟨"w1", "https://a.example", ["lead.created"], "s1", true, none⟩
    "lead.created" (fun _ => .response 200 "ok") 0
    ⟨"w1", "lead.created", 200, truncateBody "ok", true, 1, 0⟩
    (by simp [sendWebhook, sendWebhookFrom.eq_def, responseOk])

/-- C9 counterexample: a network failure whose error message is 1001
characters long is logged three times with the raw 1001-character
message as responseBody — longer than the claimed 1000-character cap. -/
theorem webhook_log_body_uncapped :
    ((sendWebhook ⟨"w1", "https://a.example", ["lead.created"], "s1", true, none⟩ "lead.created"
        (fun _ => .networkError ⟨List.replicate 1001 'x'⟩) 0).map
      (fun e => e.responseBody) =
        [⟨List.replicate 1001 'x'⟩, ⟨List.replicate 1001 'x'⟩, ⟨List.replicate 1001 'x'⟩]) ∧
    1000 < (⟨List.replicate 1001 'x'⟩ : String).length := by
  constructor
  · simp [sendWebhook, sendWebhookFrom.eq_def]
  · show 1000 < (List.replicate 1001 'x').length
    simp

/-- C10: verifying a signature produced over a payload with the same
secret always succeeds. -/
theorem verifyWebhookSignature_roundtrip (p : WebhookPayload) (secret : String) :
    verifyWebhookSignature p (generateSignature p secret) secret = true := by
  simp [verifyWebhookSignature]

/-- Witness for C10 at a concrete payload and secret. -/
theorem verifyWebhookSignature_roundtrip_witness :
    verifyWebhookSignature ⟨"lead.created", "2026-01-01T00:00:00.000Z", "d", "w"⟩
      (generateSignature ⟨"lead.created", "2026-01-01T00:00:00.000Z", "d", "w"⟩ "sec")
      "sec" = true :=
  verifyWebhookSignature_roundtrip ⟨"lead.created", "2026-01-01T00:00:00.000Z", "d", "w"⟩ "sec"

end OmniAgent
